import Mathlib

/-!
Shallow embedding of the anomaly-detection core of the repository
(`ml_service/models/anomaly_detection.py`, class `AnomalyDetector`, and the
batch endpoint in `ml_service/api/anomaly_detection.py`).

Modelling conventions:
* Python floats are embedded as exact rationals (`ℚ`); the score constants
  0.1/0.2/... are the rationals 1/10, 1/5, ...  None of the verified claims
  depends on binary floating-point rounding.
* Python dicts of request fields are embedded as a structure of `Option`
  fields; every `dict.get(key, default)` in the source becomes `Option.getD`.
* The fitted scikit-learn objects (StandardScaler + IsolationForest) are a
  deterministic function of the training window once fitted; they are
  embedded as an abstract deterministic predicate carried in the engine
  state (`MLModel`).  Likewise the library's floating-point sample standard
  deviation appears as an explicit function parameter where it matters.
* `datetime.now()` is made an explicit argument (`Instant`): the source reads
  the wall clock inside `analyze_request` (behavioral detector and the
  `analysis_timestamp` field), so the clock is part of the input.
* String scanning (`needle in haystack`, `str.lower()`) is embedded over the
  ASCII fragment actually exercised by the signature catalogs.
* IP parsing models Python `ipaddress.ip_address` for IPv4 dotted-quad
  literals (octets 0..255, no leading zeros); IPv6 literals are outside the
  model (no whitelist/blacklist entry or suspicious CIDR in the source is
  IPv6).
-/

namespace AnomalySpec

/-- Python's substring containment at the head: `needle` matches the start
of `haystack` (character lists). -/
def charsMatch : List Char → List Char → Bool
  | [], _ => true
  | _ :: _, [] => false
  | a :: as, b :: bs => a == b && charsMatch as bs

/-- `occursInChars needle haystack`: `needle` occurs contiguously somewhere in
`haystack` — the semantics of Python's `needle in haystack` on strings. -/
def occursInChars (needle : List Char) : List Char → Bool
  | [] => needle.isEmpty
  | c :: cs => charsMatch needle (c :: cs) || occursInChars needle cs

/-- Python `needle in haystack` for strings. -/
def pyIn (needle haystack : String) : Bool :=
  occursInChars needle.toList haystack.toList

/-- An IPv4 address as four octets. -/
structure IPv4 where
  a : Nat
  b : Nat
  c : Nat
  d : Nat
deriving DecidableEq

/-- Split a character list at every occurrence of `sep` (the semantics of
Python `str.split(sep)` for a single-character separator). -/
def splitOnChar (sep : Char) : List Char → List (List Char)
  | [] => [[]]
  | c :: cs =>
    match splitOnChar sep cs with
    | [] => [[]]
    | x :: xs => if c == sep then [] :: x :: xs else (c :: x) :: xs

/-- Decimal value of a digit string (used only after an all-digits check). -/
def decimalValue (cs : List Char) : Nat :=
  cs.foldl (fun n c => n * 10 + (c.toNat - 48)) 0

/-- One octet of a dotted quad, per Python `ipaddress`: decimal digits only,
no leading zero (unless the octet is exactly "0"), value at most 255. -/
def parseOctet (cs : List Char) : Option Nat :=
  if cs.isEmpty then none
  else if ¬ cs.all Char.isDigit then none
  else if cs.length > 1 ∧ cs.head? = some '0' then none
  else
    let n := decimalValue cs
    if n ≤ 255 then some n else none

/-- Python `ipaddress.ip_address` restricted to IPv4 dotted-quad literals:
exactly four octets separated by dots. -/
def parseIPv4 (s : String) : Option IPv4 :=
  match (splitOnChar '.' s.toList).map parseOctet with
  | [some a, some b, some c, some d] => some ⟨a, b, c, d⟩
  | _ => none

/-- The 32-bit integer value of an IPv4 address. -/
def ipNum (x : IPv4) : Nat :=
  ((x.a * 256 + x.b) * 256 + x.c) * 256 + x.d

/-- Membership of an address in a CIDR network `net/p` (the leading `p` bits
agree), as checked by Python's `ip_obj in ip_network(...)`. -/
def inCidr (net : IPv4) (p : Nat) (x : IPv4) : Bool :=
  ipNum x / 2 ^ (32 - p) == ipNum net / 2 ^ (32 - p)

/-- The IPv4 private networks of Python's `ipaddress` module, deciding
`IPv4Address.is_private`. -/
def privateNetworksV4 : List (IPv4 × Nat) :=
  [(⟨0, 0, 0, 0⟩, 8), (⟨10, 0, 0, 0⟩, 8), (⟨127, 0, 0, 0⟩, 8),
   (⟨169, 254, 0, 0⟩, 16), (⟨172, 16, 0, 0⟩, 12), (⟨192, 0, 0, 0⟩, 29),
   (⟨192, 0, 0, 170⟩, 31), (⟨192, 0, 2, 0⟩, 24), (⟨192, 168, 0, 0⟩, 16),
   (⟨198, 18, 0, 0⟩, 15), (⟨198, 51, 100, 0⟩, 24), (⟨203, 0, 113, 0⟩, 24),
   (⟨240, 0, 0, 0⟩, 4), (⟨255, 255, 255, 255⟩, 32)]

/-- Python `ip_obj.is_private` for IPv4. -/
def isPrivateV4 (x : IPv4) : Bool :=
  privateNetworksV4.any (fun np => inCidr np.1 np.2 x)

/-- `{'score': ..., 'reasons': [...]}` returned by each of the five
detectors (`DetectorResult` of the spec). -/
structure DetectorResult where
  score : ℚ
  reasons : List String
deriving DecidableEq

/-- The suspicious CIDR ranges hard-coded in `_analyze_ip`
(`suspicious_ranges = ['1.2.3.0/24', '5.6.7.0/24']`), paired with the
display string used in the reason. -/
def suspiciousRanges : List (IPv4 × Nat × String) :=
  [(⟨1, 2, 3, 0⟩, 24, "1.2.3.0/24"), (⟨5, 6, 7, 0⟩, 24, "5.6.7.0/24")]

/-- The IP whitelist loaded by `_load_security_data`. -/
def securityWhitelist : List String :=
  ["192.168.1.1", "192.168.1.10", "192.168.1.20", "10.0.0.1", "172.16.0.1"]

/-- The IP blacklist loaded by `_load_security_data`. -/
def securityBlacklist : List String :=
  ["1.2.3.4", "5.6.7.8", "9.10.11.12"]

/-- `AnomalyDetector._analyze_ip`: additive scoring over blacklist (+0.9),
whitelist (−0.2), parse failure (+0.3), private (−0.1) / public (+0.1),
suspicious CIDR hits (+0.5 each); the return clamps the score from above
only (`min(score, 1.0)`). Missing IP short-circuits to 0.1. -/
def analyzeIp (whitelist blacklist : List String) (ip : String) : DetectorResult :=
  if ip = "" then { score := 1/10, reasons := ["Missing IP address"] }
  else
    let blScore : ℚ := if blacklist.contains ip then 9/10 else 0
    let blReasons : List String :=
      if blacklist.contains ip then ["IP " ++ ip ++ " is blacklisted"] else []
    let wlScore : ℚ := if whitelist.contains ip then -(1/5) else 0
    let wlReasons : List String :=
      if whitelist.contains ip then ["IP " ++ ip ++ " is whitelisted"] else []
    match parseIPv4 ip with
    | none =>
        { score := min (blScore + wlScore + 3/10) 1,
          reasons := blReasons ++ wlReasons ++ ["Invalid IP address format: " ++ ip] }
    | some addr =>
        let privScore : ℚ := if isPrivateV4 addr then -(1/10) else 1/10
        let hits := suspiciousRanges.filter (fun rg => inCidr rg.1 rg.2.1 addr)
        let rangeScore : ℚ := (1/2) * hits.length
        let rangeReasons :=
          hits.map (fun rg => "IP " ++ ip ++ " is in suspicious range " ++ rg.2.2)
        { score := min (blScore + wlScore + privScore + rangeScore) 1,
          reasons := blReasons ++ wlReasons ++ rangeReasons }

example : (analyzeIp securityWhitelist securityBlacklist "192.168.1.1").score = -(3/10) := by
  norm_num +decide [analyzeIp, parseIPv4, parseOctet, splitOnChar, decimalValue,
    isPrivateV4, privateNetworksV4, inCidr, ipNum, suspiciousRanges,
    securityWhitelist, securityBlacklist, min_def]

example : (analyzeIp securityWhitelist securityBlacklist "1.2.3.4").score = 1 := by
  norm_num +decide [analyzeIp, parseIPv4, parseOctet, splitOnChar, decimalValue,
    isPrivateV4, privateNetworksV4, inCidr, ipNum, suspiciousRanges,
    securityWhitelist, securityBlacklist, min_def]

example : (analyzeIp securityWhitelist securityBlacklist "not an ip").score = 3/10 := by
  norm_num +decide [analyzeIp, parseIPv4, parseOctet, splitOnChar, decimalValue,
    securityWhitelist, securityBlacklist, min_def]

/-- ASCII lowercasing of a character list (Python `str.lower()` on the ASCII
fragment exercised by the signature catalogs). -/
def lowerChars (cs : List Char) : List Char :=
  cs.map Char.toLower

/-- Python `needle in haystack` with the haystack already held as characters. -/
def occursIn (needle : String) (haystack : List Char) : Bool :=
  occursInChars needle.toList haystack

/-- `suspicious_patterns['sql_injection_keywords']` from
`_identify_suspicious_patterns`. -/
def sqlInjectionKeywords : List String :=
  ["union", "select", "drop", "insert", "update", "delete",
   "or 1=1", "or 1=2", "--", ";--", "/*", "*/", "xp_",
   "sp_", "exec", "execute", "cast", "convert"]

/-- `suspicious_patterns['xss_patterns']`. -/
def xssPatterns : List String :=
  ["<script", "</script>", "javascript:", "onload=",
   "onerror=", "onclick=", "alert(", "document.cookie"]

/-- `suspicious_patterns['path_traversal']`. -/
def pathTraversalPatterns : List String :=
  ["../", "..\\", "/etc/passwd", "/etc/shadow",
   "boot.ini", "win.ini", "system32"]

/-- `suspicious_patterns['suspicious_user_agents']`. -/
def suspiciousUserAgents : List String :=
  ["sqlmap", "nikto", "nmap", "masscan", "zap",
   "burp", "w3af", "acunetix", "nessus"]

/-- `suspicious_patterns['admin_paths']`. -/
def adminPaths : List String :=
  ["/admin", "/administrator", "/wp-admin", "/phpmyadmin",
   "/config", "/backup", "/test", "/debug"]

/-- A record's timestamp as far as online scoring consumes it (the `hour`
feature fed to the outlier model). A record without a timestamp makes
`_extract_features` raise (`KeyError`), which the ML detector catches. -/
structure Timestamp where
  hour : Nat
deriving DecidableEq

/-- A raw request, embedding the `request_data` dict of `analyze_request`:
every field is optional and each `dict.get(key, default)` of the source
becomes `Option.getD`. -/
structure RequestRecord where
  id : Option String := none
  ip_address : Option String := none
  user_agent : Option String := none
  method : Option String := none
  path : Option String := none
  query_params : Option String := none
  status_code : Option Int := none
  response_time : Option ℚ := none
  request_size : Option ℚ := none
  response_size : Option ℚ := none
  user_id : Option String := none
  timestamp : Option Timestamp := none
deriving DecidableEq

/-- The fitted StandardScaler + IsolationForest pair. Once fitted it is a
deterministic function of the scored record's numeric features; the library
internals are abstracted into that function. `decisionScore` is
`decision_function`, `isOutlier` is `predict(...) == -1`. -/
structure MLModel where
  isOutlier : RequestRecord → Bool
  decisionScore : RequestRecord → ℚ

/-- `baseline_metrics` as read by the scoring path: the four numeric fields
`_analyze_statistics`/`_extract_features` fetch with `dict.get(key, default)`.
`none` models a key absent from the dict (baseline never built). The
frequency tables also stored by `_build_baseline_patterns` are not read by
`analyze_request` and are omitted. -/
structure BaselineMetrics where
  avg_response_time : Option ℚ := none
  std_response_time : Option ℚ := none
  avg_request_size : Option ℚ := none
  std_request_size : Option ℚ := none
deriving DecidableEq

/-- The mutable state of the `AnomalyDetector` instance that
`analyze_request` reads (plus the lazily-fitted label encoders, tracked as a
fitted/unfitted flag; in the trained state the encoders are only read). -/
structure EngineState where
  is_trained : Bool
  isolation_forest : Option MLModel
  baseline_metrics : BaselineMetrics
  whitelist_ips : List String
  blacklist_ips : List String
  encoders_fitted : Bool

/-- The wall clock observed by `datetime.now()` inside `analyze_request`:
the behavioral detector reads `.hour`, the result records `.isoformat()`. -/
structure Instant where
  hour : Nat
  iso : String
deriving DecidableEq

/-- `AnomalyDetector._analyze_patterns`: scans the lower-cased
`f"{path} {query_params}"` text against the SQLi/XSS/path-traversal
catalogs, the lower-cased user agent against the attack-tool catalog, and
the lower-cased path against the admin-path catalog. Each distinct matching
signature adds its category weight once; the final score is clamped above
at 1. -/
def analyzePatterns (r : RequestRecord) : DetectorResult :=
  let pathL : List Char := lowerChars (r.path.getD "").toList
  let q : List Char := (r.query_params.getD "\x7b\x7d").toList
  let uaL : List Char := lowerChars (r.user_agent.getD "").toList
  let combined : List Char := lowerChars (pathL ++ [' '] ++ q)
  let sqlHits := sqlInjectionKeywords.filter (fun k => occursIn k combined)
  let xssHits := xssPatterns.filter (fun k => occursIn k combined)
  let ptHits := pathTraversalPatterns.filter (fun k => occursIn k combined)
  let uaHits := suspiciousUserAgents.filter (fun k => occursIn k uaL)
  let adminHits := adminPaths.filter (fun k => occursIn k pathL)
  let score : ℚ := (3/10) * sqlHits.length + (3/10) * xssHits.length
    + (2/5) * ptHits.length + (1/2) * uaHits.length + (1/5) * adminHits.length
  let reasons :=
    sqlHits.map (fun k => "SQL injection pattern detected: " ++ k)
    ++ xssHits.map (fun k => "XSS pattern detected: " ++ k)
    ++ ptHits.map (fun k => "Path traversal pattern detected: " ++ k)
    ++ uaHits.map (fun k => "Suspicious user agent detected: " ++ k)
    ++ adminHits.map (fun k => "Admin path access detected: " ++ k)
  { score := min score 1, reasons := reasons }

/-- `AnomalyDetector._analyze_statistics`: fixed-multiplier deviation rules
against the baseline (3-sigma on response time / request size) plus status
code rules; clamped above at 1. -/
def analyzeStatistics (bm : BaselineMetrics) (r : RequestRecord) : DetectorResult :=
  let rt := r.response_time.getD 0
  let avgRt := bm.avg_response_time.getD 200
  let stdRt := bm.std_response_time.getD 50
  let s1 : ℚ := if rt > avgRt + 3 * stdRt then 3/10 else 0
  let r1 : List String :=
    if rt > avgRt + 3 * stdRt then ["Unusually high response time: " ++ toString rt ++ "ms"] else []
  let sz := r.request_size.getD 0
  let avgSz := bm.avg_request_size.getD 1024
  let stdSz := bm.std_request_size.getD 200
  let s2 : ℚ := if sz > avgSz + 3 * stdSz then 1/5 else 0
  let r2 : List String :=
    if sz > avgSz + 3 * stdSz then ["Unusually large request size: " ++ toString sz ++ " bytes"] else []
  let sc := r.status_code.getD 200
  let s3 : ℚ := if sc ≥ 500 then 1/5 else if sc = 401 ∨ sc = 403 then 1/10 else 0
  let r3 : List String :=
    if sc ≥ 500 then ["Server error status code: " ++ toString sc]
    else if sc = 401 ∨ sc = 403 then ["Authentication/authorization error: " ++ toString sc]
    else []
  { score := min (s1 + s2 + s3) 1, reasons := r1 ++ r2 ++ r3 }

/-- `AnomalyDetector._analyze_with_ml`, reached only when the fitted model
exists: feature extraction on a record without a timestamp raises
(`KeyError` on the `timestamp` column) and the `except` arm degrades to
+0.1 with the fallback reason; otherwise the standardized features go
through the ensemble and an outlier verdict adds +0.4. -/
def analyzeWithML (m : MLModel) (r : RequestRecord) : DetectorResult :=
  match r.timestamp with
  | none =>
      { score := min (1/10) 1, reasons := ["ML analysis failed - using fallback detection"] }
  | some _ =>
      if m.isOutlier r then
        { score := min (2/5) 1,
          reasons := ["ML model detected anomaly (score: " ++ toString (m.decisionScore r) ++ ")"] }
      else { score := min 0 1, reasons := [] }

/-- The ML contribution inside `analyze_request`: the default
`{'score': 0.0, 'reasons': []}` stands when `self.isolation_forest` is
absent; `_analyze_with_ml` runs only when the model exists. -/
def mlComponent (s : EngineState) (r : RequestRecord) : DetectorResult :=
  match s.isolation_forest with
  | none => { score := 0, reasons := [] }
  | some m => analyzeWithML m r

/-- `AnomalyDetector._analyze_behavior`: +0.1 outside business hours — read
from the wall clock `datetime.now().hour`, not from the record — and +0.2
for an unauthenticated request to a `/api/` path outside the two public
auth endpoints (`not user_id` is Python falsiness: missing or empty). -/
def analyzeBehavior (now : Instant) (r : RequestRecord) : DetectorResult :=
  let offHours : Bool := now.hour < 6 || now.hour > 22
  let s1 : ℚ := if offHours then 1/10 else 0
  let r1 : List String := if offHours then ["Request outside normal business hours"] else []
  let path := r.path.getD ""
  let noUser : Bool := r.user_id = none || r.user_id = some ""
  let unauth : Bool := occursIn "/api/" path.toList && noUser
    && path ≠ "/api/auth/login" && path ≠ "/api/auth/register"
  let s2 : ℚ := if unauth then 1/5 else 0
  let r2 : List String := if unauth then ["Unauthenticated access to protected endpoint"] else []
  { score := min (s1 + s2) 1, reasons := r1 ++ r2 }

/-- The four-level risk taxonomy. -/
inductive RiskLevel
  | low
  | medium
  | high
  | critical
deriving DecidableEq

/-- Severity rank of a risk level (`low < medium < high < critical`). -/
def RiskLevel.rank : RiskLevel → Nat
  | .low => 0
  | .medium => 1
  | .high => 2
  | .critical => 3

/-- The `risk_thresholds` dict of `analyze_request`, in its insertion
(= iteration) order. -/
def riskThresholds : List (RiskLevel × ℚ) :=
  [(.critical, 4/5), (.high, 3/5), (.medium, 2/5), (.low, 0)]

/-- The risk-classification loop of `analyze_request`: the first threshold
with `anomaly_score >= threshold` wins; when none matches (a negative
total) the initial value `'low'` stands. -/
def riskLevelOf (t : ℚ) : RiskLevel :=
  ((riskThresholds.find? (fun p => decide (p.2 ≤ t))).map Prod.fst).getD .low

/-- Round-half-to-even on an exact rational, the rounding mode of Python's
`round`. -/
def roundHalfEven (y : ℚ) : ℤ :=
  let f := ⌊y⌋
  let r := y - f
  if r < 1/2 then f
  else if 1/2 < r then f + 1
  else if f % 2 = 0 then f else f + 1

/-- Python `round(q, 3)` on the exact value. -/
def pythonRound3 (q : ℚ) : ℚ :=
  (roundHalfEven (q * 1000) : ℚ) / 1000

/-- One entry of `analysis_contributions` built by
`_generate_comprehensive_reasoning`. -/
structure Contribution where
  score : ℚ
  percentage : ℚ
  reasons_count : Nat
deriving DecidableEq

/-- Python `str.title()` over ASCII, after `str.replace('_', ' ')` — the
transformation applied to the primary detector's key. -/
def titleChars : Bool → List Char → List Char
  | _, [] => []
  | prevAlpha, c :: cs =>
    let c' := if c.isAlpha then (if prevAlpha then c.toLower else c.toUpper) else c
    c' :: titleChars c.isAlpha cs

/-- `key.replace('_', ' ').title()`. -/
def pyTitleOfKey (s : String) : String :=
  ⟨titleChars false (s.toList.map (fun c => if c == '_' then ' ' else c))⟩

/-- The structured content of the reasoning report produced by
`_generate_comprehensive_reasoning` (the purely presentational strings —
`factors`, `technical_details`, the formatted `explanation` — are carried
by `primaryKey`/`primaryScore` instead of their rendered text). -/
structure Reasoning where
  confidence : String
  analysis_breakdown : List (String × Contribution)
  primaryKey : String
  primaryScore : ℚ
  primary_trigger : String
deriving DecidableEq

/-- One `analysis_contributions` entry: the detector's score, its percentage
of the total (`0` when the total is not positive), and its reason count. -/
def contributionOf (total : ℚ) (p : String × DetectorResult) : String × Contribution :=
  (p.1, { score := p.2.score,
          percentage := if total > 0 then p.2.score / total * 100 else 0,
          reasons_count := p.2.reasons.length })

/-- `AnomalyDetector._generate_comprehensive_reasoning`: per-detector
percentage contributions (0 when the total is not positive), the primary
detection method as Python `max(items, key=score)` — the first maximal
entry in insertion order — and the confidence label. -/
def generateReasoning (total : ℚ) (reasons : List String)
    (detailed : List (String × DetectorResult)) : Reasoning :=
  let contributions : List (String × Contribution) := detailed.map (contributionOf total)
  let primary := (contributions.argmax (fun x => x.2.score)).getD ("", ⟨0, 0, 0⟩)
  let confidence :=
    if total > 7/10 ∧ reasons.length ≥ 3 then "High"
    else if total > 2/5 ∧ reasons.length ≥ 2 then "Medium"
    else "Low"
  { confidence := confidence,
    analysis_breakdown := contributions,
    primaryKey := primary.1,
    primaryScore := primary.2.score,
    primary_trigger := pyTitleOfKey primary.1 }

/-- `AnomalyDetector._generate_recommendations`: fixed rule table keyed on
total-score bands plus pattern-specific additions matched as substrings of
the collected reasons. -/
def generateRecommendations (total : ℚ) (reasons : List String) : List String :=
  let base : List String :=
    if total ≥ 4/5 then
      ["IMMEDIATE ACTION: Block this IP address",
       "Review and strengthen authentication mechanisms",
       "Implement additional monitoring for this request pattern"]
    else if total ≥ 3/5 then
      ["Increase monitoring for this IP address",
       "Consider implementing CAPTCHA for suspicious requests",
       "Review access logs for similar patterns"]
    else if total ≥ 2/5 then
      ["Monitor this request pattern",
       "Consider rate limiting for this IP",
       "Review security policies"]
    else []
  base
  ++ (if reasons.any (fun s => occursIn "SQL injection" s.toList) then
        ["Implement parameterized queries and input validation"] else [])
  ++ (if reasons.any (fun s => occursIn "XSS" s.toList) then
        ["Implement output encoding and CSP headers"] else [])
  ++ (if reasons.any (fun s => occursIn "suspicious user agent" s.toList) then
        ["Block known attack tool user agents"] else [])

/-- The final per-request verdict (`AnalysisResult`). `anomaly_score` is the
rounded total; `is_anomaly` and `risk_level` are computed from the
unrounded total. -/
structure AnalysisResult where
  request_id : String
  anomaly_score : ℚ
  risk_level : RiskLevel
  is_anomaly : Bool
  anomaly_reasons : List String
  recommendations : List String
  analysis_timestamp : String
  reasoning : Reasoning
  detailed_analysis : List (String × DetectorResult)
deriving DecidableEq

/-- The five detector runs of `analyze_request`, in source order, as the
`detailed_analysis` dict records them. -/
def detectorResults (s : EngineState) (now : Instant) (r : RequestRecord) :
    List (String × DetectorResult) :=
  [("ip_analysis", analyzeIp s.whitelist_ips s.blacklist_ips (r.ip_address.getD "")),
   ("pattern_analysis", analyzePatterns r),
   ("stats_analysis", analyzeStatistics s.baseline_metrics r),
   ("ml_analysis", mlComponent s r),
   ("behavior_analysis", analyzeBehavior now r)]

/-- The fused anomaly total: the plain sum of the five detector scores, as
accumulated by `anomaly_score += ...` in `analyze_request` — no clamping in
either direction. -/
def fusedTotal (s : EngineState) (now : Instant) (r : RequestRecord) : ℚ :=
  ((detectorResults s now r).map (fun p => p.2.score)).sum

/-- `AnomalyDetector.analyze_request` in the trained state (the untrained
entry guard is `analyzeRequest` below). -/
def analyzeRequestTrained (s : EngineState) (now : Instant) (r : RequestRecord) :
    AnalysisResult :=
  let detailed := detectorResults s now r
  let total := (detailed.map (fun p => p.2.score)).sum
  let reasons := (detailed.map (fun p => p.2.reasons)).flatten
  { request_id := r.id.getD "unknown",
    anomaly_score := pythonRound3 total,
    risk_level := riskLevelOf total,
    is_anomaly := decide (total > 1/2),
    anomaly_reasons := reasons,
    recommendations := generateRecommendations total reasons,
    analysis_timestamp := now.iso,
    reasoning := generateReasoning total reasons detailed,
    detailed_analysis := detailed }

/-- Mean of a numeric column (`pandas .mean()` after `fillna(0)`). -/
def listMean (xs : List ℚ) : ℚ := xs.sum / xs.length

/-- The deterministic external collaborators consumed only by the
initialization path: the request-log window fetched from the database, the
seeded sample dataset generated when the window is empty, the library's
floating-point sample standard deviation of a column, and the scaler +
isolation-forest fitting. -/
structure MLCollab where
  dbRows : List RequestRecord
  sampleRows : List RequestRecord
  libStd : List ℚ → ℚ
  fitForest : List RequestRecord → MLModel

/-- The effect of `AnomalyDetector.initialize()` on the state read by
`analyze_request`: load the window (sample data when the database window is
empty), load the static security lists, build the baseline statistics, fit
the encoders and the outlier model, and finally set `is_trained`. -/
def initEngine (env : MLCollab) : EngineState :=
  let data := if env.dbRows.isEmpty then env.sampleRows else env.dbRows
  { is_trained := true,
    isolation_forest := if data.isEmpty then none else some (env.fitForest data),
    baseline_metrics :=
      if data.isEmpty then {} else
        { avg_response_time := some (listMean (data.map (fun r => r.response_time.getD 0))),
          std_response_time := some (env.libStd (data.map (fun r => r.response_time.getD 0))),
          avg_request_size := some (listMean (data.map (fun r => r.request_size.getD 0))),
          std_request_size := some (env.libStd (data.map (fun r => r.request_size.getD 0))) },
    whitelist_ips := securityWhitelist,
    blacklist_ips := securityBlacklist,
    encoders_fitted := !data.isEmpty }

/-- The entry guard of `analyze_request`:
`if not self.is_trained: await self.initialize()`. -/
def postInit (env : MLCollab) (s : EngineState) : EngineState :=
  if s.is_trained then s else initEngine env

/-- `AnomalyDetector.analyze_request` including its entry guard: the pair of
the state after the call and the returned result. -/
def analyzeRequest (env : MLCollab) (s : EngineState) (now : Instant)
    (r : RequestRecord) : EngineState × AnalysisResult :=
  let s' := postInit env s
  (s', analyzeRequestTrained s' now r)

/-- The aggregate summary of the batch endpoint. -/
structure BatchSummary where
  total_requests : Nat
  anomalous_requests : Nat
  high_risk_requests : Nat
  anomaly_rate : ℚ
deriving DecidableEq

/-- The loop of `analyze_requests_batch`: one `analyze_request` call per
input, in order, threading the engine state. -/
def analyzeBatchLoop (env : MLCollab) (now : Instant) :
    EngineState → List RequestRecord → EngineState × List AnalysisResult
  | s, [] => (s, [])
  | s, r :: rs =>
    let p := analyzeRequest env s now r
    let q := analyzeBatchLoop env now p.1 rs
    (q.1, p.2 :: q.2)

/-- `analyze_requests_batch` of `api/anomaly_detection.py`: the per-input
results in input order plus the summary statistics, with
`anomaly_rate = round(anomalous/total, 3)` guarded against `total == 0`. -/
def analyzeRequestsBatch (env : MLCollab) (s : EngineState) (now : Instant)
    (rs : List RequestRecord) : EngineState × List AnalysisResult × BatchSummary :=
  let p := analyzeBatchLoop env now s rs
  let results := p.2
  let total := results.length
  let anomalous := (results.filter (fun x => x.is_anomaly)).length
  let highRisk := (results.filter (fun x =>
    x.risk_level == RiskLevel.high || x.risk_level == RiskLevel.critical)).length
  (p.1, results,
   { total_requests := total,
     anomalous_requests := anomalous,
     high_risk_requests := highRisk,
     anomaly_rate := if total > 0 then pythonRound3 ((anomalous : ℚ) / total) else 0 })

/-- Sample mean of the baseline window's column, as `pandas` computes it. -/
def sampleMean (xs : List ℚ) : ℚ := xs.sum / xs.length

/-- Sample variance with `ddof = 1` — the square of the standard deviation
`pandas .std()` stores into `baseline_metrics['std_response_time']`. -/
def sampleVariance (xs : List ℚ) : ℚ :=
  ((xs.map (fun x => (x - sampleMean xs) ^ 2)).sum) / ((xs.length : ℚ) - 1)

/-- The value `_build_baseline_patterns` stores for a stddev field, kept in
exact form: the float is the square root of the sample variance, which is
irrational in general, so the constructor carries the exact variance;
`nan` is the `pandas .std()` of a single record (`ddof = 1`). -/
inductive StoredStd
  | nan
  | sqrtOf (variance : ℚ)
deriving DecidableEq

/-- The stddev entry of `baseline_metrics` as a function of the baseline
window's column: no entry for an empty window (`_build_baseline_patterns`
returns early and the dict keeps no key), `NaN` for a single record, and
the square root of the sample variance otherwise. -/
def buildStoredStd (xs : List ℚ) : Option StoredStd :=
  if xs.length = 0 then none
  else if xs.length = 1 then some StoredStd.nan
  else some (StoredStd.sqrtOf (sampleVariance xs))

/-- Positivity of the z-score divisor `_extract_features` divides by,
`float(self.baseline_metrics.get('std_response_time', 50))`: the fixed
fallback 50 applies only when the key is absent; a stored `NaN` is not
positive; a stored square root is positive exactly when the variance is. -/
def storedDivisorPos : Option StoredStd → Prop
  | none => (0 : ℚ) < 50
  | some StoredStd.nan => False
  | some (StoredStd.sqrtOf v) => 0 < v

/-! Concrete fixtures used by counterexamples and witnesses. -/

/-- A fitted model that never flags an outlier. -/
def mlNever : MLModel :=
  { isOutlier := fun _ => false, decisionScore := fun _ => 0 }

/-- A baseline equal to the source's fallback constants. -/
def trainedBaseline : BaselineMetrics :=
  { avg_response_time := some 200, std_response_time := some 50,
    avg_request_size := some 1024, std_request_size := some 200 }

/-- A fully trained engine state with the static security lists loaded. -/
def trainedState : EngineState :=
  { is_trained := true, isolation_forest := some mlNever,
    baseline_metrics := trainedBaseline,
    whitelist_ips := securityWhitelist, blacklist_ips := securityBlacklist,
    encoders_fitted := true }

/-- A trained-flagged state whose outlier model is absent. -/
def modelLessState : EngineState :=
  { trainedState with isolation_forest := none }

/-- A freshly constructed, never-initialized engine state (`__init__`). -/
def untrainedState : EngineState :=
  { is_trained := false, isolation_forest := none, baseline_metrics := {},
    whitelist_ips := [], blacklist_ips := [], encoders_fitted := false }

/-- An unremarkable authenticated request from a whitelisted internal IP. -/
def cleanRecord : RequestRecord :=
  { id := some "r1", ip_address := some "192.168.1.1",
    user_agent := some "Mozilla", method := some "GET", path := some "/",
    query_params := some "\x7b\x7d", status_code := some 200,
    response_time := some 100, request_size := some 100,
    response_size := some 100, user_id := some "user_1",
    timestamp := some ⟨12⟩ }

/-- The clean request re-issued from a blacklisted IP. -/
def blacklistedRecord : RequestRecord :=
  { cleanRecord with id := some "r2", ip_address := some "1.2.3.4" }

/-- The clean request without a timestamp field (the shape the HTTP API
layer produces: `RequestAnalysisRequest` has no timestamp). -/
def noTsRecord : RequestRecord :=
  { cleanRecord with timestamp := none }

/-- A daytime call instant. -/
def noonInstant : Instant := { hour := 12, iso := "2024-01-01T12:00:00" }

/-- A late-night call instant. -/
def nightInstant : Instant := { hour := 23, iso := "2024-01-01T23:00:00" }

/-- A second daytime instant, distinct from `noonInstant` only in the
recorded wall-clock string. -/
def noonInstant2 : Instant := { hour := 12, iso := "2024-01-02T12:30:00" }

/-- A collaborator environment with a one-row database window. -/
def collabEnv : MLCollab :=
  { dbRows := [cleanRecord], sampleRows := [], libStd := fun _ => 0,
    fitForest := fun _ => mlNever }

/-- A collaborator environment with an empty database window. -/
def collabEnvEmptyDb : MLCollab :=
  { collabEnv with dbRows := [] }

/-! Shared helper lemmas. -/

/-- The first-match threshold loop equals the nested conditional. -/
theorem riskLevelOf_eq (t : ℚ) :
    riskLevelOf t =
      if 4/5 ≤ t then RiskLevel.critical
      else if 3/5 ≤ t then RiskLevel.high
      else if 2/5 ≤ t then RiskLevel.medium
      else RiskLevel.low := by
  unfold riskLevelOf riskThresholds
  by_cases h1 : 4/5 ≤ t
  · simp [List.find?, h1]
  · by_cases h2 : 3/5 ≤ t
    · simp [List.find?, h1, h2]
    · by_cases h3 : 2/5 ≤ t
      · simp [List.find?, h1, h2, h3]
      · by_cases h0 : (0:ℚ) ≤ t
        · simp [List.find?, h1, h2, h3, h0]
        · simp [List.find?, h1, h2, h3, h0]

/-- `roundHalfEven` is the identity on integers. -/
theorem roundHalfEven_intCast (n : ℤ) : roundHalfEven (n : ℚ) = n := by
  simp [roundHalfEven]

/-- The IP detector's score is additive with only an upper clamp: it always
lies in `[-0.3, 1]`, the lower end attained by whitelisted private
addresses. -/
theorem analyzeIp_score_bounds (wl bl : List String) (ip : String) :
    -(3/10) ≤ (analyzeIp wl bl ip).score ∧ (analyzeIp wl bl ip).score ≤ 1 := by
  unfold analyzeIp
  by_cases hip : ip = ""
  · rw [if_pos hip]
    constructor <;> norm_num
  · rw [if_neg hip]
    rcases hp : parseIPv4 ip with _ | addr <;> simp only [hp]
    · constructor
      · refine le_min ?_ (by norm_num)
        split_ifs <;> norm_num
      · exact min_le_right _ _
    · have hlen : (0:ℚ) ≤
          (1/2) * ((suspiciousRanges.filter (fun rg => inCidr rg.1 rg.2.1 addr)).length : ℚ) := by
        positivity
      constructor
      · refine le_min ?_ (by norm_num)
        split_ifs <;> linarith
      · exact min_le_right _ _

/-- The pattern detector's score lies in `[0, 1]`. -/
theorem analyzePatterns_score_bounds (r : RequestRecord) :
    0 ≤ (analyzePatterns r).score ∧ (analyzePatterns r).score ≤ 1 := by
  unfold analyzePatterns
  dsimp only
  constructor
  · refine le_min ?_ (by norm_num)
    positivity
  · exact min_le_right _ _

/-- The statistical detector's score lies in `[0, 1]`. -/
theorem analyzeStatistics_score_bounds (bm : BaselineMetrics) (r : RequestRecord) :
    0 ≤ (analyzeStatistics bm r).score ∧ (analyzeStatistics bm r).score ≤ 1 := by
  unfold analyzeStatistics
  dsimp only
  constructor
  · refine le_min ?_ (by norm_num)
    split_ifs <;> norm_num
  · exact min_le_right _ _

/-- The ML contribution (absent model included) lies in `[0, 1]`. -/
theorem mlComponent_score_bounds (s : EngineState) (r : RequestRecord) :
    0 ≤ (mlComponent s r).score ∧ (mlComponent s r).score ≤ 1 := by
  unfold mlComponent
  rcases s.isolation_forest with _ | m
  · constructor <;> norm_num
  · unfold analyzeWithML
    rcases r.timestamp with _ | ts <;> dsimp only
    · constructor <;> norm_num
    · split_ifs <;> constructor <;> norm_num

/-- The behavioral detector's score lies in `[0, 1]`. -/
theorem analyzeBehavior_score_bounds (now : Instant) (r : RequestRecord) :
    0 ≤ (analyzeBehavior now r).score ∧ (analyzeBehavior now r).score ≤ 1 := by
  unfold analyzeBehavior
  dsimp only
  constructor
  · refine le_min ?_ (by norm_num)
    split_ifs <;> norm_num
  · exact min_le_right _ _

/-- The fused total written as the explicit five-way sum. -/
theorem fusedTotal_eq (s : EngineState) (now : Instant) (r : RequestRecord) :
    fusedTotal s now r =
      (analyzeIp s.whitelist_ips s.blacklist_ips (r.ip_address.getD "")).score
      + (analyzePatterns r).score
      + (analyzeStatistics s.baseline_metrics r).score
      + (mlComponent s r).score
      + (analyzeBehavior now r).score := by
  simp [fusedTotal, detectorResults]
  ring

/-! Claim theorems. -/

/-- C4: the risk level of every result is determined from the fused total by
the descending fixed thresholds (critical at 0.8, high at 0.6, medium at
0.4, else low), and is monotone in the total under the severity order
low < medium < high < critical. -/
theorem C4_risk_classification :
    (∀ t : ℚ, riskLevelOf t =
      if 4/5 ≤ t then RiskLevel.critical
      else if 3/5 ≤ t then RiskLevel.high
      else if 2/5 ≤ t then RiskLevel.medium
      else RiskLevel.low)
    ∧ ∀ t1 t2 : ℚ, t1 ≤ t2 → (riskLevelOf t1).rank ≤ (riskLevelOf t2).rank := by
  refine ⟨riskLevelOf_eq, ?_⟩
  intro t1 t2 h
  rw [riskLevelOf_eq, riskLevelOf_eq]
  split_ifs <;> simp [RiskLevel.rank] <;> linarith

/-- C4 witness: the classification and the monotonicity instantiated at
concrete totals. -/
theorem C4_risk_classification_witness :
    riskLevelOf (1/2) = RiskLevel.medium
    ∧ (riskLevelOf (3/10)).rank ≤ (riskLevelOf (9/10)).rank := by
  constructor
  · rw [C4_risk_classification.1 (1/2)]
    norm_num
  · exact C4_risk_classification.2 (3/10) (9/10) (by norm_num)

/-- C7 counterexample: a baseline window of two identical response times
(population ≥ 2, zero spread) stores a standard deviation of exactly 0, so
the z-score divisor `baseline_metrics.get('std_response_time', 50)` is 0 —
not strictly positive, and not replaced by any epsilon fallback. -/
theorem C7_counterexample : ¬ storedDivisorPos (buildStoredStd [200, 200]) := by
  have h : buildStoredStd [200, 200] = some (StoredStd.sqrtOf 0) := by
    norm_num [buildStoredStd, sampleVariance, sampleMean, List.sum_cons, List.sum_nil]
  rw [h]
  simp [storedDivisorPos]

/-- C7 (amended): the divisor used by the z-score computation is strictly
positive exactly when the baseline window is empty (so that the
`dict.get` fallback 50 applies) or has at least two records with nonzero
sample variance; a single-record window stores NaN and a zero-spread window
stores 0, with no epsilon guard in either case. -/
theorem C7_divisor_positive_iff (xs : List ℚ) :
    storedDivisorPos (buildStoredStd xs) ↔
      xs.length = 0 ∨ (2 ≤ xs.length ∧ 0 < sampleVariance xs) := by
  unfold buildStoredStd
  split_ifs with h0 h1
  · simp [storedDivisorPos, h0]
  · simp only [storedDivisorPos, h1]
    norm_num
  · have h2 : 2 ≤ xs.length := by omega
    simp [storedDivisorPos, h0, h2]

/-- C1 counterexample: for the whitelisted private address `192.168.1.1`
(clean in every other respect) the IP detector returns −0.3: the source
clamps only from above (`min(score, 1.0)`), so the score is negative and
contributes negatively to the fusion total. -/
theorem C1_counterexample :
    (analyzeIp securityWhitelist securityBlacklist "192.168.1.1").score < 0 := by
  norm_num +decide [analyzeIp, parseIPv4, parseOctet, splitOnChar, decimalValue,
    isPrivateV4, privateNetworksV4, inCidr, ipNum, suspiciousRanges,
    securityWhitelist, securityBlacklist, min_def]

/-- C1 (amended): the IP detector's score is additive and clamped only from
above at 1: for every input address it lies in `[-0.3, 1]`, where the lower
end −0.3 (whitelist −0.2 plus private −0.1) is reachable, so a whitelisted
clean address does contribute negatively to the fusion total. -/
theorem C1_ip_score_range (wl bl : List String) (ip : String) :
    -(3/10) ≤ (analyzeIp wl bl ip).score ∧ (analyzeIp wl bl ip).score ≤ 1 :=
  analyzeIp_score_bounds wl bl ip

/-! Concrete evaluations at the fixtures. -/

/-- The whitelisted private IP scores −0.3. -/
theorem ipScore_whitelisted :
    (analyzeIp securityWhitelist securityBlacklist "192.168.1.1").score = -(3/10) := by
  norm_num +decide [analyzeIp, parseIPv4, parseOctet, splitOnChar, decimalValue,
    isPrivateV4, privateNetworksV4, inCidr, ipNum, suspiciousRanges,
    securityWhitelist, securityBlacklist, min_def]

/-- The blacklisted public IP (also inside a suspicious range) scores 1. -/
theorem ipScore_blacklisted :
    (analyzeIp securityWhitelist securityBlacklist "1.2.3.4").score = 1 := by
  norm_num +decide [analyzeIp, parseIPv4, parseOctet, splitOnChar, decimalValue,
    isPrivateV4, privateNetworksV4, inCidr, ipNum, suspiciousRanges,
    securityWhitelist, securityBlacklist, min_def]

/-- The pattern detector scores 0 on the clean path/query/agent triple. -/
theorem patternScore_clean (r : RequestRecord) (hp : r.path = some "/")
    (hq : r.query_params = some "\x7b\x7d") (hu : r.user_agent = some "Mozilla") :
    (analyzePatterns r).score = 0 := by
  unfold analyzePatterns
  rw [hp, hq, hu]
  norm_num +decide [sqlInjectionKeywords, xssPatterns, pathTraversalPatterns,
    suspiciousUserAgents, adminPaths, occursIn, occursInChars, charsMatch,
    lowerChars, Option.getD, min_def]

/-- The statistical detector scores 0 on in-baseline numeric fields. -/
theorem statsScore_clean (r : RequestRecord) (h1 : r.response_time = some 100)
    (h2 : r.request_size = some 100) (h3 : r.status_code = some 200) :
    (analyzeStatistics trainedBaseline r).score = 0 := by
  unfold analyzeStatistics
  rw [h1, h2, h3]
  norm_num [trainedBaseline, Option.getD, min_def]

/-- The never-flagging fitted model contributes 0 on a timestamped record. -/
theorem mlScore_clean (r : RequestRecord) (ts : Timestamp)
    (ht : r.timestamp = some ts) : (mlComponent trainedState r).score = 0 := by
  show (analyzeWithML mlNever r).score = 0
  unfold analyzeWithML
  rw [ht]
  norm_num [mlNever, min_def]

/-- The behavioral detector scores 0 during business hours on a non-API
path. -/
theorem behaviorScore_clean (now : Instant) (r : RequestRecord)
    (hh : 6 ≤ now.hour ∧ now.hour ≤ 22) (hp : r.path = some "/") :
    (analyzeBehavior now r).score = 0 := by
  unfold analyzeBehavior
  rw [hp]
  have hn1 : ¬ (now.hour < 6) := by omega
  have hn2 : ¬ (now.hour > 22) := by omega
  norm_num +decide [hn1, hn2, occursIn, occursInChars, charsMatch, Option.getD, min_def]

/-- The behavioral detector scores 0.1 at 23:00 on a non-API path. -/
theorem behaviorScore_night (r : RequestRecord) (hp : r.path = some "/") :
    (analyzeBehavior nightInstant r).score = 1/10 := by
  unfold analyzeBehavior
  rw [hp]
  norm_num +decide [nightInstant, occursIn, occursInChars, charsMatch, Option.getD, min_def]

/-- The fused total of the clean whitelisted request at noon is −0.3. -/
theorem total_clean_noon :
    fusedTotal trainedState noonInstant cleanRecord = -(3/10) := by
  rw [fusedTotal_eq,
    show trainedState.whitelist_ips = securityWhitelist from rfl,
    show trainedState.blacklist_ips = securityBlacklist from rfl,
    show trainedState.baseline_metrics = trainedBaseline from rfl,
    show cleanRecord.ip_address.getD "" = "192.168.1.1" from rfl,
    ipScore_whitelisted,
    patternScore_clean cleanRecord rfl rfl rfl,
    statsScore_clean cleanRecord rfl rfl rfl,
    mlScore_clean cleanRecord ⟨12⟩ rfl,
    behaviorScore_clean noonInstant cleanRecord ⟨by decide, by decide⟩ rfl]
  norm_num

/-- The fused total of the clean whitelisted request at 23:00 is −0.2. -/
theorem total_clean_night :
    fusedTotal trainedState nightInstant cleanRecord = -(1/5) := by
  rw [fusedTotal_eq,
    show trainedState.whitelist_ips = securityWhitelist from rfl,
    show trainedState.blacklist_ips = securityBlacklist from rfl,
    show trainedState.baseline_metrics = trainedBaseline from rfl,
    show cleanRecord.ip_address.getD "" = "192.168.1.1" from rfl,
    ipScore_whitelisted,
    patternScore_clean cleanRecord rfl rfl rfl,
    statsScore_clean cleanRecord rfl rfl rfl,
    mlScore_clean cleanRecord ⟨12⟩ rfl,
    behaviorScore_night cleanRecord rfl]
  norm_num

/-- The fused total of the blacklisted request at noon is 1. -/
theorem total_blacklisted_noon :
    fusedTotal trainedState noonInstant blacklistedRecord = 1 := by
  rw [fusedTotal_eq,
    show trainedState.whitelist_ips = securityWhitelist from rfl,
    show trainedState.blacklist_ips = securityBlacklist from rfl,
    show trainedState.baseline_metrics = trainedBaseline from rfl,
    show blacklistedRecord.ip_address.getD "" = "1.2.3.4" from rfl,
    ipScore_blacklisted,
    patternScore_clean blacklistedRecord rfl rfl rfl,
    statsScore_clean blacklistedRecord rfl rfl rfl,
    mlScore_clean blacklistedRecord ⟨12⟩ rfl,
    behaviorScore_clean noonInstant blacklistedRecord ⟨by decide, by decide⟩ rfl]
  norm_num

/-- C2 counterexample: the clean whitelisted request's returned anomaly
score is −0.3 — negative — so the fused total is not clamped below at 0. -/
theorem C2_counterexample :
    (analyzeRequestTrained trainedState noonInstant cleanRecord).anomaly_score < 0 := by
  have h : (analyzeRequestTrained trainedState noonInstant cleanRecord).anomaly_score
      = pythonRound3 (fusedTotal trainedState noonInstant cleanRecord) := rfl
  rw [h, total_clean_noon]
  unfold pythonRound3
  rw [show (-(3/10) : ℚ) * 1000 = ((-300 : ℤ) : ℚ) by norm_num, roundHalfEven_intCast]
  norm_num

/-- C2 (amended): the fused total is the plain five-way sum of the detector
scores with no clamping in either direction (it lies in `[-0.3, 5]`, the
lower end from the IP detector's negative range), and `is_anomaly` holds
exactly when this unclamped total exceeds 0.5; the reported score is the
total rounded to three decimals. -/
theorem C2_fusion_sum (s : EngineState) (now : Instant) (r : RequestRecord) :
    (analyzeRequestTrained s now r).is_anomaly = decide (fusedTotal s now r > 1/2)
    ∧ (analyzeRequestTrained s now r).anomaly_score = pythonRound3 (fusedTotal s now r)
    ∧ fusedTotal s now r =
        (analyzeIp s.whitelist_ips s.blacklist_ips (r.ip_address.getD "")).score
        + (analyzePatterns r).score
        + (analyzeStatistics s.baseline_metrics r).score
        + (mlComponent s r).score
        + (analyzeBehavior now r).score
    ∧ -(3/10) ≤ fusedTotal s now r ∧ fusedTotal s now r ≤ 5 := by
  have h1 := analyzeIp_score_bounds s.whitelist_ips s.blacklist_ips (r.ip_address.getD "")
  have h2 := analyzePatterns_score_bounds r
  have h3 := analyzeStatistics_score_bounds s.baseline_metrics r
  have h4 := mlComponent_score_bounds s r
  have h5 := analyzeBehavior_score_bounds now r
  refine ⟨rfl, rfl, fusedTotal_eq s now r, ?_, ?_⟩ <;>
    rw [fusedTotal_eq] <;>
    linarith [h1.1, h1.2, h2.1, h2.2, h3.1, h3.2, h4.1, h4.2, h5.1, h5.2]

/-- C3 counterexample: with the outlier model absent the ML detector
contributes exactly 0.0 (and no reason), not the fixed low-confidence
0.1 the claim asserts. -/
theorem C3_counterexample :
    (mlComponent modelLessState cleanRecord).score = 0
    ∧ (mlComponent modelLessState cleanRecord).score ≠ 1/10 := by
  have h : (mlComponent modelLessState cleanRecord).score = 0 := rfl
  exact ⟨h, by rw [h]; norm_num⟩

/-- C3 (amended): when the model object is absent the ML detector keeps the
default `{score: 0.0, reasons: []}` (analyze still returns a complete
result built from that); the +0.1 fallback with the reason
"ML analysis failed - using fallback detection" arises only when the model
exists but its invocation raises — e.g. on a record without a timestamp
field, the shape the HTTP API always produces. -/
theorem C3_ml_unavailable (s : EngineState) (r : RequestRecord) :
    (s.isolation_forest = none → mlComponent s r = { score := 0, reasons := [] })
    ∧ (∀ m, s.isolation_forest = some m → r.timestamp = none →
        mlComponent s r =
          { score := 1/10, reasons := ["ML analysis failed - using fallback detection"] }) := by
  constructor
  · intro h
    unfold mlComponent
    rw [h]
  · intro m hm ht
    unfold mlComponent
    rw [hm]
    unfold analyzeWithML
    rw [ht]
    have hmin : min (1/10 : ℚ) 1 = 1/10 := min_eq_left (by norm_num)
    rw [hmin]

/-- C3 witness: both arms instantiated — the model-less state yields 0, the
trained state on the API-shaped record yields the 0.1 fallback. -/
theorem C3_ml_unavailable_witness :
    mlComponent modelLessState noTsRecord = { score := 0, reasons := [] }
    ∧ mlComponent trainedState noTsRecord =
        { score := 1/10, reasons := ["ML analysis failed - using fallback detection"] } :=
  ⟨(C3_ml_unavailable modelLessState noTsRecord).1 rfl,
   (C3_ml_unavailable trainedState noTsRecord).2 mlNever rfl rfl⟩

/-- C5 counterexample: the same record against the same trained snapshot
analyzed at 12:00 and at 23:00 returns different anomaly scores (−0.3
versus −0.2): the behavioral detector reads the wall clock of the call. -/
theorem C5_counterexample :
    (analyzeRequestTrained trainedState noonInstant cleanRecord).anomaly_score
    ≠ (analyzeRequestTrained trainedState nightInstant cleanRecord).anomaly_score := by
  have hA : (analyzeRequestTrained trainedState noonInstant cleanRecord).anomaly_score
      = pythonRound3 (fusedTotal trainedState noonInstant cleanRecord) := rfl
  have hB : (analyzeRequestTrained trainedState nightInstant cleanRecord).anomaly_score
      = pythonRound3 (fusedTotal trainedState nightInstant cleanRecord) := rfl
  rw [hA, hB, total_clean_noon, total_clean_night]
  unfold pythonRound3
  rw [show (-(3/10) : ℚ) * 1000 = ((-300 : ℤ) : ℚ) by norm_num,
    show (-(1/5) : ℚ) * 1000 = ((-200 : ℤ) : ℚ) by norm_num,
    roundHalfEven_intCast, roundHalfEven_intCast]
  norm_num

/-- C5 (amended): `analyze` is deterministic in the record, the snapshot AND
the wall clock: two calls whose clocks agree on the hour return identical
results in every field except the recorded `analysis_timestamp` string. -/
theorem C5_deterministic_modulo_clock (s : EngineState) (r : RequestRecord)
    (n1 n2 : Instant) (h : n1.hour = n2.hour) :
    (analyzeRequestTrained s n1 r).anomaly_score = (analyzeRequestTrained s n2 r).anomaly_score
    ∧ (analyzeRequestTrained s n1 r).risk_level = (analyzeRequestTrained s n2 r).risk_level
    ∧ (analyzeRequestTrained s n1 r).is_anomaly = (analyzeRequestTrained s n2 r).is_anomaly
    ∧ (analyzeRequestTrained s n1 r).anomaly_reasons
        = (analyzeRequestTrained s n2 r).anomaly_reasons
    ∧ (analyzeRequestTrained s n1 r).recommendations
        = (analyzeRequestTrained s n2 r).recommendations
    ∧ (analyzeRequestTrained s n1 r).reasoning = (analyzeRequestTrained s n2 r).reasoning
    ∧ (analyzeRequestTrained s n1 r).detailed_analysis
        = (analyzeRequestTrained s n2 r).detailed_analysis
    ∧ (analyzeRequestTrained s n1 r).request_id = (analyzeRequestTrained s n2 r).request_id := by
  have hb : analyzeBehavior n1 r = analyzeBehavior n2 r := by
    unfold analyzeBehavior
    rw [h]
  have hd : detectorResults s n1 r = detectorResults s n2 r := by
    unfold detectorResults
    rw [hb]
  simp only [analyzeRequestTrained, hd]
  simp

/-- C5 witness: two noon instants differing only in the recorded wall-clock
string give identical scoring output. -/
theorem C5_deterministic_modulo_clock_witness :
    (analyzeRequestTrained trainedState noonInstant cleanRecord).anomaly_score
      = (analyzeRequestTrained trainedState noonInstant2 cleanRecord).anomaly_score
    ∧ (analyzeRequestTrained trainedState noonInstant cleanRecord).risk_level
      = (analyzeRequestTrained trainedState noonInstant2 cleanRecord).risk_level
    ∧ (analyzeRequestTrained trainedState noonInstant cleanRecord).is_anomaly
      = (analyzeRequestTrained trainedState noonInstant2 cleanRecord).is_anomaly
    ∧ (analyzeRequestTrained trainedState noonInstant cleanRecord).anomaly_reasons
      = (analyzeRequestTrained trainedState noonInstant2 cleanRecord).anomaly_reasons
    ∧ (analyzeRequestTrained trainedState noonInstant cleanRecord).recommendations
      = (analyzeRequestTrained trainedState noonInstant2 cleanRecord).recommendations
    ∧ (analyzeRequestTrained trainedState noonInstant cleanRecord).reasoning
      = (analyzeRequestTrained trainedState noonInstant2 cleanRecord).reasoning
    ∧ (analyzeRequestTrained trainedState noonInstant cleanRecord).detailed_analysis
      = (analyzeRequestTrained trainedState noonInstant2 cleanRecord).detailed_analysis
    ∧ (analyzeRequestTrained trainedState noonInstant cleanRecord).request_id
      = (analyzeRequestTrained trainedState noonInstant2 cleanRecord).request_id :=
  C5_deterministic_modulo_clock trainedState cleanRecord noonInstant noonInstant2 rfl

/-- C6 counterexample: an `analyze` call on a never-initialized engine is
not side-effect-free: it runs the initialization path — the `is_trained`
flag flips to true and the baseline is rebuilt from the loaded database
window. -/
theorem C6_counterexample :
    untrainedState.is_trained = false
    ∧ ((analyzeRequest collabEnv untrainedState noonInstant cleanRecord).1).is_trained = true
    ∧ ((analyzeRequest collabEnv untrainedState noonInstant
        cleanRecord).1).baseline_metrics.avg_response_time = some 100 := by
  refine ⟨rfl, rfl, ?_⟩
  show (initEngine collabEnv).baseline_metrics.avg_response_time = some 100
  norm_num [initEngine, collabEnv, listMean, cleanRecord, List.sum_cons, List.sum_nil]

/-- C6 (amended): on an already-trained engine, `analyze` leaves the engine
state unchanged and never consults the database/collaborator environment —
the initialization path runs only when the engine is untrained (and then a
single `analyze` call does trigger it). -/
theorem C6_trained_frame (env env' : MLCollab) (s : EngineState) (now : Instant)
    (r : RequestRecord) (h : s.is_trained = true) :
    (analyzeRequest env s now r).1 = s
    ∧ analyzeRequest env s now r = analyzeRequest env' s now r := by
  have hp : postInit env s = s := by
    unfold postInit
    rw [h]
    simp
  have hp' : postInit env' s = s := by
    unfold postInit
    rw [h]
    simp
  constructor
  · show postInit env s = s
    exact hp
  · show (postInit env s, analyzeRequestTrained (postInit env s) now r)
      = (postInit env' s, analyzeRequestTrained (postInit env' s) now r)
    rw [hp, hp']

/-- C6 witness: the trained state is untouched, and two different
collaborator environments (one-row window versus empty window) give the
identical call result. -/
theorem C6_trained_frame_witness :
    (analyzeRequest collabEnv trainedState noonInstant cleanRecord).1 = trainedState
    ∧ analyzeRequest collabEnv trainedState noonInstant cleanRecord
      = analyzeRequest collabEnvEmptyDb trainedState noonInstant cleanRecord :=
  C6_trained_frame collabEnv collabEnvEmptyDb trainedState noonInstant cleanRecord rfl

/-- C10: whenever a result's `is_anomaly` is true its risk level is at least
medium — never low — since both are computed from the same unrounded fused
total and the anomaly cutoff 0.5 exceeds the medium threshold 0.4. -/
theorem C10_anomaly_not_low (s : EngineState) (now : Instant) (r : RequestRecord)
    (h : (analyzeRequestTrained s now r).is_anomaly = true) :
    (analyzeRequestTrained s now r).risk_level ≠ RiskLevel.low := by
  have ht : 1/2 < fusedTotal s now r := by
    have h' : decide (fusedTotal s now r > 1/2) = true := h
    exact of_decide_eq_true h'
  have hr : (analyzeRequestTrained s now r).risk_level
      = riskLevelOf (fusedTotal s now r) := rfl
  rw [hr, riskLevelOf_eq]
  split_ifs with hcrit hhigh hmed
  · simp
  · simp
  · simp
  · exfalso
    linarith

/-- C10 witness: the blacklisted request is flagged anomalous and its risk
level is not low. -/
theorem C10_anomaly_not_low_witness :
    (analyzeRequestTrained trainedState noonInstant blacklistedRecord).is_anomaly = true
    ∧ (analyzeRequestTrained trainedState noonInstant blacklistedRecord).risk_level
      ≠ RiskLevel.low := by
  have h : (analyzeRequestTrained trainedState noonInstant blacklistedRecord).is_anomaly
      = true := by
    have he : (analyzeRequestTrained trainedState noonInstant blacklistedRecord).is_anomaly
        = decide (fusedTotal trainedState noonInstant blacklistedRecord > 1/2) := rfl
    rw [he, total_blacklisted_noon]
    exact decide_eq_true (by norm_num)
  exact ⟨h, C10_anomaly_not_low trainedState noonInstant blacklistedRecord h⟩

/-- Any state that has passed the entry guard carries `is_trained = true`. -/
theorem postInit_is_trained (env : MLCollab) (s : EngineState) :
    (postInit env s).is_trained = true := by
  unfold postInit
  split_ifs with h
  · exact h
  · rfl

/-- The entry guard is idempotent across the calls of a batch. -/
theorem postInit_idem (env : MLCollab) (s : EngineState) :
    postInit env (postInit env s) = postInit env s := by
  show (if (postInit env s).is_trained then postInit env s else initEngine env)
    = postInit env s
  rw [postInit_is_trained env s]
  simp

/-- The batch loop returns exactly the per-input results of the post-guard
snapshot, in input order. -/
theorem batchLoop_results (env : MLCollab) (now : Instant) (s : EngineState)
    (rs : List RequestRecord) :
    (analyzeBatchLoop env now s rs).2
      = rs.map (analyzeRequestTrained (postInit env s) now) := by
  induction rs generalizing s with
  | nil => rfl
  | cons r rs ih =>
    simp only [analyzeBatchLoop, List.map_cons]
    rw [show (analyzeRequest env s now r).1 = postInit env s from rfl,
      ih (postInit env s), postInit_idem]
    rfl

/-- C8: the batch interface returns one result per input in input order,
its summary counts the results in which `is_anomaly` holds, and its
`anomaly_rate` is `round(k/N, 3)` — and exactly 0 when `N = 0`, with no
division. -/
theorem C8_batch_contract (env : MLCollab) (s : EngineState) (now : Instant)
    (rs : List RequestRecord) :
    (analyzeRequestsBatch env s now rs).2.1
      = rs.map (analyzeRequestTrained (postInit env s) now)
    ∧ (analyzeRequestsBatch env s now rs).2.2.total_requests = rs.length
    ∧ (analyzeRequestsBatch env s now rs).2.2.anomalous_requests
        = ((analyzeRequestsBatch env s now rs).2.1.filter (fun x => x.is_anomaly)).length
    ∧ (analyzeRequestsBatch env s now rs).2.2.anomaly_rate =
        (if rs.length = 0 then 0 else
          pythonRound3 ((((analyzeRequestsBatch env s now rs).2.1.filter
            (fun x => x.is_anomaly)).length : ℚ) / (rs.length : ℚ))) := by
  have hres : (analyzeRequestsBatch env s now rs).2.1
      = rs.map (analyzeRequestTrained (postInit env s) now) :=
    batchLoop_results env now s rs
  have hlen : (analyzeRequestsBatch env s now rs).2.1.length = rs.length := by
    rw [hres, List.length_map]
  refine ⟨hres, ?_, rfl, ?_⟩
  · rw [show (analyzeRequestsBatch env s now rs).2.2.total_requests
        = (analyzeRequestsBatch env s now rs).2.1.length from rfl, hlen]
  · rw [show (analyzeRequestsBatch env s now rs).2.2.anomaly_rate
        = (if 0 < (analyzeRequestsBatch env s now rs).2.1.length then
            pythonRound3 ((((analyzeRequestsBatch env s now rs).2.1.filter
              (fun x => x.is_anomaly)).length : ℚ)
              / ((analyzeRequestsBatch env s now rs).2.1.length : ℚ))
          else 0) from rfl, hlen]
    rcases Nat.eq_zero_or_pos rs.length with h0 | hpos
    · simp [h0]
    · rw [if_pos hpos, if_neg (by omega)]

/-- The reasoning generator's breakdown, primary selection and title: the
breakdown is the contribution map, every breakdown score is bounded by the
primary score, the primary key/score name an actual breakdown entry, and
the displayed trigger is the title-cased primary key. -/
theorem generateReasoning_spec (total : ℚ) (reasons : List String)
    (detailed : List (String × DetectorResult)) (hne : detailed ≠ []) :
    (generateReasoning total reasons detailed).analysis_breakdown
      = detailed.map (contributionOf total)
    ∧ (∀ p ∈ (generateReasoning total reasons detailed).analysis_breakdown,
        p.2.score ≤ (generateReasoning total reasons detailed).primaryScore)
    ∧ (∃ p ∈ (generateReasoning total reasons detailed).analysis_breakdown,
        p.1 = (generateReasoning total reasons detailed).primaryKey
        ∧ p.2.score = (generateReasoning total reasons detailed).primaryScore)
    ∧ (generateReasoning total reasons detailed).primary_trigger
      = pyTitleOfKey (generateReasoning total reasons detailed).primaryKey := by
  have hne' : detailed.map (contributionOf total) ≠ [] := by
    simpa using hne
  have hb : (generateReasoning total reasons detailed).analysis_breakdown
      = detailed.map (contributionOf total) := rfl
  rcases hm : (detailed.map (contributionOf total)).argmax (fun x => x.2.score) with _ | m
  · rw [List.argmax_eq_none] at hm
    exact absurd hm hne'
  · have hmm : m ∈ (detailed.map (contributionOf total)).argmax (fun x => x.2.score) :=
      Option.mem_def.mpr hm
    have hkey : (generateReasoning total reasons detailed).primaryKey = m.1 := by
      show ((((detailed.map (contributionOf total)).argmax
        (fun x => x.2.score)).getD ("", ⟨0, 0, 0⟩)).1) = m.1
      rw [hm]
      rfl
    have hscore : (generateReasoning total reasons detailed).primaryScore = m.2.score := by
      show ((((detailed.map (contributionOf total)).argmax
        (fun x => x.2.score)).getD ("", ⟨0, 0, 0⟩)).2.score) = m.2.score
      rw [hm]
      rfl
    refine ⟨hb, ?_, ?_, rfl⟩
    · intro p hp
      rw [hb] at hp
      rw [hscore]
      have hle := List.le_of_mem_argmax hp hmm
      exact hle
    · refine ⟨m, ?_, hkey.symm, hscore.symm⟩
      rw [hb]
      exact List.argmax_mem hmm

/-- C9: in every result, the reasoning's percentage contributions are
`score/total*100` when the total is positive and 0 otherwise, computed from
the same detector scores and the same unclamped total used for fusion; the
primary trigger names a detector whose raw sub-score is maximal among the
five. -/
theorem C9_reasoning_consistency (s : EngineState) (now : Instant) (r : RequestRecord) :
    ((analyzeRequestTrained s now r).reasoning.analysis_breakdown.map
        (fun p => p.2.percentage)
      = (analyzeRequestTrained s now r).detailed_analysis.map (fun p =>
          if fusedTotal s now r > 0 then p.2.score / fusedTotal s now r * 100 else 0))
    ∧ ((analyzeRequestTrained s now r).reasoning.analysis_breakdown.all
        (fun p => decide (p.2.score
          ≤ (analyzeRequestTrained s now r).reasoning.primaryScore)) = true)
    ∧ ((analyzeRequestTrained s now r).reasoning.analysis_breakdown.any
        (fun p => decide (p.1 = (analyzeRequestTrained s now r).reasoning.primaryKey
          ∧ p.2.score = (analyzeRequestTrained s now r).reasoning.primaryScore)) = true)
    ∧ (analyzeRequestTrained s now r).reasoning.primary_trigger
      = pyTitleOfKey (analyzeRequestTrained s now r).reasoning.primaryKey := by
  have hne : detectorResults s now r ≠ [] := by
    simp [detectorResults]
  have hres : (analyzeRequestTrained s now r).reasoning
      = generateReasoning (fusedTotal s now r)
          (((detectorResults s now r).map (fun p => p.2.reasons)).flatten)
          (detectorResults s now r) := rfl
  have hdet : (analyzeRequestTrained s now r).detailed_analysis
      = detectorResults s now r := rfl
  obtain ⟨hb, hall, hany, htr⟩ :=
    generateReasoning_spec (fusedTotal s now r)
      (((detectorResults s now r).map (fun p => p.2.reasons)).flatten)
      (detectorResults s now r) hne
  rw [hres, hdet]
  refine ⟨?_, ?_, ?_, htr⟩
  · rw [hb, List.map_map]
    rfl
  · rw [List.all_eq_true]
    intro p hp
    exact decide_eq_true (hall p hp)
  · rw [List.any_eq_true]
    obtain ⟨p, hp, h1, h2⟩ := hany
    exact ⟨p, hp, decide_eq_true ⟨h1, h2⟩⟩

end AnomalySpec
